import Mathlib

/-!
Verification development for the usage/cost projection model of
`src/cost_calculator.py` (Epherum/translation-app).

The Python module is a Streamlit page; its computational core is a pure
arithmetic pipeline which we embed here over `ℚ` (Python floats are modelled
as exact rationals; every constant of the source is a small decimal, written
below as an exact fraction):

* the provider pricing table `PROVIDERS` (source lines 44-97);
* the usage projection (source lines 147-166), driven by the sidebar values
  `monthly_users`, `active_days`, `sessions_per_day`, `text_percent`,
  `photo_percent` (with `voice_percent = 100 - text_percent - photo_percent`,
  line 124), the three actions-per-session values and the two
  average-character values;
* `calculate_costs` (lines 169-182), `total_monthly_cost` and `annual_cost`
  (lines 195-196);
* the billable-volume column of the usage table (lines 242-244);
* the free-tier utilization percentages (lines 273-275);
* the all-providers comparison (lines 359-376).  `sort_values` on a
  DataFrame of fewer than 16 rows runs numpy's small-array insertion sort,
  which is a stable ascending sort, so the comparison is embedded as a
  stable insertion sort on (name, monthly cost) rows.
-/

namespace CostCalculator

/-- Provider pricing record, mirroring one entry of the `PROVIDERS`
dictionary (source lines 44-97).  Monetary and volume fields are `ℚ`. -/
structure ProviderPricing where
  text_free_tier : ℚ
  text_cost_per_million : ℚ
  stt_free_tier : ℚ
  stt_cost_per_minute : ℚ
  ocr_free_tier : ℚ
  ocr_cost_per_1000 : ℚ
  languages : ℕ
  accuracy_text : ℕ
  accuracy_stt : ℕ
  accuracy_ocr : ℕ
  strengths : String

/-- `PROVIDERS["Google Cloud Translation"]` (lines 45-57); 0.016 = 16/1000. -/
def googleCloud : ProviderPricing :=
  ⟨500000, 20, 60, 16/1000, 1000, 3/2, 189, 92, 95, 96,
    "Broadest language support, strong API ecosystem"⟩

/-- `PROVIDERS["Microsoft Azure Translator"]` (lines 58-70). -/
def azureTranslator : ProviderPricing :=
  ⟨2000000, 10, 300, 1, 5000, 3/2, 100, 90, 94, 95,
    "Most generous free tier, excellent for business content"⟩

/-- `PROVIDERS["Amazon Translate/Transcribe"]` (lines 71-83); 0.024 = 24/1000. -/
def amazonTranslate : ProviderPricing :=
  ⟨2000000, 15, 60, 24/1000, 1000, 3/2, 75, 89, 93, 93,
    "AWS ecosystem integration, competitive pricing"⟩

/-- `PROVIDERS["DeepL API"]` (lines 84-96): no STT and no OCR service, all
four corresponding fields are 0. -/
def deepL : ProviderPricing :=
  ⟨500000, 25, 0, 0, 0, 0, 33, 96, 0, 0,
    "Highest translation accuracy, best for European languages"⟩

/-- The provider catalog in its insertion order (lines 44-97). -/
def PROVIDERS : List (String × ProviderPricing) :=
  [("Google Cloud Translation", googleCloud),
   ("Microsoft Azure Translator", azureTranslator),
   ("Amazon Translate/Transcribe", amazonTranslate),
   ("DeepL API", deepL)]

/-- The sidebar inputs feeding the usage projection (lines 116-136).  The
widgets bound their values: users in [100, 1000000], days in [1, 30],
sessions in [1, 20], `text_percent` in [0, 100] and `photo_percent` in
[0, 100 - text_percent] (line 123), so the voice share derived at line 124
lies in [0, 100] for every program-reachable state and the three shares
always sum to exactly 100.  Fields are unbounded rationals here, a
widening: theorems quantifying over all of them cover in particular every
reachable sidebar state.  The source has no per-voice-seconds input: voice
duration is hard-coded at 30 seconds per voice action (line 155). -/
structure Assumptions where
  monthly_users : ℚ
  active_days : ℚ
  sessions_per_day : ℚ
  text_percent : ℚ
  photo_percent : ℚ
  text_actions : ℚ
  photo_actions : ℚ
  voice_actions : ℚ
  avg_text_chars : ℚ
  avg_voice_chars : ℚ

/-- Line 124: `voice_percent = 100 - text_percent - photo_percent`.  The
voice share is derived, never entered and never validated. -/
def voice_percent (a : Assumptions) : ℚ :=
  100 - a.text_percent - a.photo_percent

/-- Line 147: `total_sessions = monthly_users * active_days * sessions_per_day`. -/
def total_sessions (a : Assumptions) : ℚ :=
  a.monthly_users * a.active_days * a.sessions_per_day

/-- Line 150: `text_sessions = total_sessions * (text_percent / 100)`. -/
def text_sessions (a : Assumptions) : ℚ :=
  total_sessions a * (a.text_percent / 100)

/-- Line 151: `total_text_chars = text_sessions * text_actions * avg_text_chars`. -/
def total_text_chars (a : Assumptions) : ℚ :=
  text_sessions a * a.text_actions * a.avg_text_chars

/-- Line 154: `voice_sessions = total_sessions * (voice_percent / 100)`. -/
def voice_sessions (a : Assumptions) : ℚ :=
  total_sessions a * (voice_percent a / 100)

/-- Line 155: `total_voice_minutes = voice_sessions * voice_actions * 0.5`
(hard-coded 30-second average per voice action). -/
def total_voice_minutes (a : Assumptions) : ℚ :=
  voice_sessions a * a.voice_actions * (1/2)

/-- Line 156: `total_voice_chars = voice_sessions * voice_actions * avg_voice_chars`. -/
def total_voice_chars (a : Assumptions) : ℚ :=
  voice_sessions a * a.voice_actions * a.avg_voice_chars

/-- Line 159: `photo_sessions = total_sessions * (photo_percent / 100)`. -/
def photo_sessions (a : Assumptions) : ℚ :=
  total_sessions a * (a.photo_percent / 100)

/-- Line 160: `total_photo_images = photo_sessions * photo_actions`. -/
def total_photo_images (a : Assumptions) : ℚ :=
  photo_sessions a * a.photo_actions

/-- Line 161: `total_photo_chars = photo_sessions * photo_actions * 200`
(hard-coded 200 characters per photo). -/
def total_photo_chars (a : Assumptions) : ℚ :=
  photo_sessions a * a.photo_actions * 200

/-- Line 164: the characters billed for translation pool text, voice and
photo (OCR) characters together. -/
def total_chars_for_translation (a : Assumptions) : ℚ :=
  total_text_chars a + total_voice_chars a + total_photo_chars a

/-- Line 165: `total_stt_minutes = total_voice_minutes`. -/
def total_stt_minutes (a : Assumptions) : ℚ :=
  total_voice_minutes a

/-- Line 166: `total_ocr_images = total_photo_images`. -/
def total_ocr_images (a : Assumptions) : ℚ :=
  total_photo_images a

/-- Lines 169-182: `calculate_costs(provider_data, chars, stt_mins, ocr_imgs)`
returning the triple `(text_cost, stt_cost, ocr_cost)`. -/
def calculate_costs (p : ProviderPricing) (chars stt_mins ocr_imgs : ℚ) :
    ℚ × ℚ × ℚ :=
  let chars_after_free := max 0 (chars - p.text_free_tier)
  let text_cost := chars_after_free / 1000000 * p.text_cost_per_million
  let stt_after_free := max 0 (stt_mins - p.stt_free_tier)
  let stt_cost := stt_after_free * p.stt_cost_per_minute
  let ocr_after_free := max 0 (ocr_imgs - p.ocr_free_tier)
  let ocr_cost := ocr_after_free / 1000 * p.ocr_cost_per_1000
  (text_cost, stt_cost, ocr_cost)

/-- Line 195: `total_monthly_cost = text_cost + stt_cost + ocr_cost`. -/
def total_monthly_cost (p : ProviderPricing) (chars stt_mins ocr_imgs : ℚ) : ℚ :=
  (calculate_costs p chars stt_mins ocr_imgs).1 +
    (calculate_costs p chars stt_mins ocr_imgs).2.1 +
    (calculate_costs p chars stt_mins ocr_imgs).2.2

/-- Line 196: `annual_cost = total_monthly_cost * 12`. -/
def annual_cost (p : ProviderPricing) (chars stt_mins ocr_imgs : ℚ) : ℚ :=
  total_monthly_cost p chars stt_mins ocr_imgs * 12

/-- The billable volume of one dimension, as displayed in the usage table
(lines 242-244): `max(0, volume - free_tier)`; the same expression is the
`*_after_free` step inside `calculate_costs`. -/
def billable (volume free_tier : ℚ) : ℚ :=
  max 0 (volume - free_tier)

/-- Free-tier utilization of one dimension (lines 273-275):
`volume / free_tier * 100 if free_tier > 0 else 100`. -/
def free_usage (volume free_tier : ℚ) : ℚ :=
  if free_tier > 0 then volume / free_tier * 100 else 100

@[simp] theorem calculate_costs_text (p : ProviderPricing) (c s o : ℚ) :
    (calculate_costs p c s o).1 =
      max 0 (c - p.text_free_tier) / 1000000 * p.text_cost_per_million := rfl

@[simp] theorem calculate_costs_stt (p : ProviderPricing) (c s o : ℚ) :
    (calculate_costs p c s o).2.1 =
      max 0 (s - p.stt_free_tier) * p.stt_cost_per_minute := rfl

@[simp] theorem calculate_costs_ocr (p : ProviderPricing) (c s o : ℚ) :
    (calculate_costs p c s o).2.2 =
      max 0 (o - p.ocr_free_tier) / 1000 * p.ocr_cost_per_1000 := rfl

/-- Ordering of comparison rows by their monthly-cost column, the key of
`comparison_df.sort_values('Monthly Cost')` (line 376). -/
def costLE (a b : String × ℚ) : Prop :=
  a.2 ≤ b.2

instance : DecidableRel costLE :=
  fun a b => inferInstanceAs (Decidable (a.2 ≤ b.2))

instance : IsTotal (String × ℚ) costLE :=
  ⟨fun a b => le_total a.2 b.2⟩

instance : IsTrans (String × ℚ) costLE :=
  ⟨fun _ _ _ hab hbc => le_trans hab hbc⟩

/-- Lines 359-371: one comparison row `(provider name, monthly cost)` per
catalog entry, in catalog insertion order. -/
def all_provider_costs (chars stt_mins ocr_imgs : ℚ) : List (String × ℚ) :=
  PROVIDERS.map (fun row => (row.1, total_monthly_cost row.2 chars stt_mins ocr_imgs))

/-- Line 376: `comparison_df.sort_values('Monthly Cost')`.  On a frame of
fewer than 16 rows numpy's quicksort runs its small-array insertion sort,
an ascending stable sort; the catalog has 4 rows. -/
def comparison_sorted (chars stt_mins ocr_imgs : ℚ) : List (String × ℚ) :=
  List.insertionSort costLE (all_provider_costs chars stt_mins ocr_imgs)

/-- Claim C2: for every provider and every dimension, the billable volume is
never negative, and whenever the raw volume is at most the free-tier
capacity both the billable volume and the cost of that dimension are
exactly 0. -/
theorem C2_free_tier_clamp (p : ProviderPricing) (chars stt_mins ocr_imgs : ℚ) :
    0 ≤ billable chars p.text_free_tier ∧
    0 ≤ billable stt_mins p.stt_free_tier ∧
    0 ≤ billable ocr_imgs p.ocr_free_tier ∧
    (chars ≤ p.text_free_tier →
      billable chars p.text_free_tier = 0 ∧ (calculate_costs p chars stt_mins ocr_imgs).1 = 0) ∧
    (stt_mins ≤ p.stt_free_tier →
      billable stt_mins p.stt_free_tier = 0 ∧ (calculate_costs p chars stt_mins ocr_imgs).2.1 = 0) ∧
    (ocr_imgs ≤ p.ocr_free_tier →
      billable ocr_imgs p.ocr_free_tier = 0 ∧ (calculate_costs p chars stt_mins ocr_imgs).2.2 = 0) := by
  refine ⟨le_max_left _ _, le_max_left _ _, le_max_left _ _, ?_, ?_, ?_⟩
  · intro h
    have hb : max 0 (chars - p.text_free_tier) = 0 :=
      max_eq_left (sub_nonpos.mpr h)
    exact ⟨hb, by simp [hb]⟩
  · intro h
    have hb : max 0 (stt_mins - p.stt_free_tier) = 0 :=
      max_eq_left (sub_nonpos.mpr h)
    exact ⟨hb, by simp [hb]⟩
  · intro h
    have hb : max 0 (ocr_imgs - p.ocr_free_tier) = 0 :=
      max_eq_left (sub_nonpos.mpr h)
    exact ⟨hb, by simp [hb]⟩

/-- Witness for C2: on Google Cloud pricing, 100 characters sit inside the
500000-character free tier, so billable characters and text cost are 0. -/
theorem C2_free_tier_clamp_witness :
    billable 100 googleCloud.text_free_tier = 0 ∧
      (calculate_costs googleCloud 100 10 5).1 = 0 :=
  (C2_free_tier_clamp googleCloud 100 10 5).2.2.2.1 (by norm_num [googleCloud])

/-- Claim C5: for every provider and every volumes, the annual cost is
exactly 12 times the total monthly cost, and the total monthly cost is the
sum of the text, STT and OCR components. -/
theorem C5_annual_twelve_monthly (p : ProviderPricing) (chars stt_mins ocr_imgs : ℚ) :
    annual_cost p chars stt_mins ocr_imgs = 12 * total_monthly_cost p chars stt_mins ocr_imgs ∧
    total_monthly_cost p chars stt_mins ocr_imgs =
      (calculate_costs p chars stt_mins ocr_imgs).1 +
        (calculate_costs p chars stt_mins ocr_imgs).2.1 +
        (calculate_costs p chars stt_mins ocr_imgs).2.2 :=
  ⟨mul_comm _ 12, rfl⟩

/-- Claim C7: free-tier utilization is exactly 100 whenever the free-tier
capacity is 0 (for every raw volume, including 0), with no division by
zero; for a positive capacity it is volume / capacity * 100. -/
theorem C7_zero_capacity_utilization (volume free_tier : ℚ) :
    free_usage volume 0 = 100 ∧
    (0 < free_tier → free_usage volume free_tier = volume / free_tier * 100) := by
  constructor
  · simp [free_usage]
  · intro h
    simp [free_usage, h]

/-- Witness for C7: with capacity 0 the utilization of volume 50 is 100;
with capacity 2 it is 50 / 2 * 100. -/
theorem C7_zero_capacity_utilization_witness :
    free_usage 50 0 = 100 ∧ free_usage 50 2 = 50 / 2 * 100 :=
  ⟨(C7_zero_capacity_utilization 50 0).1,
    (C7_zero_capacity_utilization 50 2).2 (by norm_num)⟩

/-- Claim C8: the characters billed for translation are the sum of the
text-channel, voice-channel and OCR-channel characters, the OCR channel
contributing its image count times the 200-character-per-image constant. -/
theorem C8_translation_chars_pool (a : Assumptions) :
    total_chars_for_translation a =
      total_text_chars a + total_voice_chars a + total_photo_chars a ∧
    total_photo_chars a = total_photo_images a * 200 := by
  refine ⟨rfl, ?_⟩
  unfold total_photo_chars total_photo_images
  ring

/-- Claim C10: with non-negative prices, free tiers and raw volumes, each of
the three cost components is non-negative, and so are the total monthly and
annual costs. -/
theorem C10_costs_nonneg (p : ProviderPricing) (chars stt_mins ocr_imgs : ℚ)
    (hT : 0 ≤ p.text_cost_per_million) (hS : 0 ≤ p.stt_cost_per_minute)
    (hO : 0 ≤ p.ocr_cost_per_1000)
    (hfT : 0 ≤ p.text_free_tier) (hfS : 0 ≤ p.stt_free_tier) (hfO : 0 ≤ p.ocr_free_tier)
    (hc : 0 ≤ chars) (hs : 0 ≤ stt_mins) (ho : 0 ≤ ocr_imgs) :
    0 ≤ (calculate_costs p chars stt_mins ocr_imgs).1 ∧
    0 ≤ (calculate_costs p chars stt_mins ocr_imgs).2.1 ∧
    0 ≤ (calculate_costs p chars stt_mins ocr_imgs).2.2 ∧
    0 ≤ total_monthly_cost p chars stt_mins ocr_imgs ∧
    0 ≤ annual_cost p chars stt_mins ocr_imgs := by
  have h1 : 0 ≤ (calculate_costs p chars stt_mins ocr_imgs).1 := by
    rw [calculate_costs_text]
    exact mul_nonneg (div_nonneg (le_max_left _ _) (by norm_num)) hT
  have h2 : 0 ≤ (calculate_costs p chars stt_mins ocr_imgs).2.1 := by
    rw [calculate_costs_stt]
    exact mul_nonneg (le_max_left _ _) hS
  have h3 : 0 ≤ (calculate_costs p chars stt_mins ocr_imgs).2.2 := by
    rw [calculate_costs_ocr]
    exact mul_nonneg (div_nonneg (le_max_left _ _) (by norm_num)) hO
  have h4 : 0 ≤ total_monthly_cost p chars stt_mins ocr_imgs :=
    add_nonneg (add_nonneg h1 h2) h3
  exact ⟨h1, h2, h3, h4, mul_nonneg h4 (by norm_num)⟩

/-- Witness for C10: on Google Cloud pricing with small positive volumes,
the annual cost is non-negative. -/
theorem C10_costs_nonneg_witness :
    0 ≤ annual_cost googleCloud 1 2 3 :=
  (C10_costs_nonneg googleCloud 1 2 3 (by norm_num [googleCloud])
    (by norm_num [googleCloud]) (by norm_num [googleCloud]) (by norm_num [googleCloud])
    (by norm_num [googleCloud]) (by norm_num [googleCloud]) (by norm_num)
    (by norm_num) (by norm_num)).2.2.2.2

/-- Claim C6: with non-negative unit prices and all other arguments fixed,
each per-dimension cost and the total monthly cost are non-decreasing in
each raw volume and non-increasing in each corresponding free-tier size. -/
theorem C6_monotonicity (p : ProviderPricing)
    (hT : 0 ≤ p.text_cost_per_million) (hS : 0 ≤ p.stt_cost_per_minute)
    (hO : 0 ≤ p.ocr_cost_per_1000)
    (c c' s s' o o' f f' : ℚ)
    (hc : c ≤ c') (hs : s ≤ s') (ho : o ≤ o') (hf : f ≤ f') :
    (calculate_costs p c s o).1 ≤ (calculate_costs p c' s' o').1 ∧
    (calculate_costs p c s o).2.1 ≤ (calculate_costs p c' s' o').2.1 ∧
    (calculate_costs p c s o).2.2 ≤ (calculate_costs p c' s' o').2.2 ∧
    total_monthly_cost p c s o ≤ total_monthly_cost p c' s' o' ∧
    (calculate_costs { p with text_free_tier := f' } c s o).1 ≤
      (calculate_costs { p with text_free_tier := f } c s o).1 ∧
    (calculate_costs { p with stt_free_tier := f' } c s o).2.1 ≤
      (calculate_costs { p with stt_free_tier := f } c s o).2.1 ∧
    (calculate_costs { p with ocr_free_tier := f' } c s o).2.2 ≤
      (calculate_costs { p with ocr_free_tier := f } c s o).2.2 ∧
    total_monthly_cost { p with text_free_tier := f' } c s o ≤
      total_monthly_cost { p with text_free_tier := f } c s o ∧
    total_monthly_cost { p with stt_free_tier := f' } c s o ≤
      total_monthly_cost { p with stt_free_tier := f } c s o ∧
    total_monthly_cost { p with ocr_free_tier := f' } c s o ≤
      total_monthly_cost { p with ocr_free_tier := f } c s o := by
  have hdiv : ∀ x y : ℚ, x ≤ y → x / 1000000 ≤ y / 1000000 := fun x y hxy => by
    have h1000000 : (0:ℚ) ≤ 1000000 := by norm_num
    exact div_le_div_of_nonneg_right hxy h1000000
  have hdiv1000 : ∀ x y : ℚ, x ≤ y → x / 1000 ≤ y / 1000 := fun x y hxy => by
    have h1000 : (0:ℚ) ≤ 1000 := by norm_num
    exact div_le_div_of_nonneg_right hxy h1000
  have hmax : ∀ v v' ft ft' : ℚ, v ≤ v' → ft' ≤ ft →
      max 0 (v - ft) ≤ max 0 (v' - ft') := fun v v' ft ft' hv hft =>
    max_le_max le_rfl (by linarith)
  have h1 : (calculate_costs p c s o).1 ≤ (calculate_costs p c' s' o').1 := by
    simp only [calculate_costs_text]
    exact mul_le_mul_of_nonneg_right (hdiv _ _ (hmax _ _ _ _ hc le_rfl)) hT
  have h2 : (calculate_costs p c s o).2.1 ≤ (calculate_costs p c' s' o').2.1 := by
    simp only [calculate_costs_stt]
    exact mul_le_mul_of_nonneg_right (hmax _ _ _ _ hs le_rfl) hS
  have h3 : (calculate_costs p c s o).2.2 ≤ (calculate_costs p c' s' o').2.2 := by
    simp only [calculate_costs_ocr]
    exact mul_le_mul_of_nonneg_right (hdiv1000 _ _ (hmax _ _ _ _ ho le_rfl)) hO
  have h5 : (calculate_costs { p with text_free_tier := f' } c s o).1 ≤
      (calculate_costs { p with text_free_tier := f } c s o).1 := by
    simp only [calculate_costs_text]
    exact mul_le_mul_of_nonneg_right (hdiv _ _ (hmax _ _ _ _ le_rfl hf)) hT
  have h6 : (calculate_costs { p with stt_free_tier := f' } c s o).2.1 ≤
      (calculate_costs { p with stt_free_tier := f } c s o).2.1 := by
    simp only [calculate_costs_stt]
    exact mul_le_mul_of_nonneg_right (hmax _ _ _ _ le_rfl hf) hS
  have h7 : (calculate_costs { p with ocr_free_tier := f' } c s o).2.2 ≤
      (calculate_costs { p with ocr_free_tier := f } c s o).2.2 := by
    simp only [calculate_costs_ocr]
    exact mul_le_mul_of_nonneg_right (hdiv1000 _ _ (hmax _ _ _ _ le_rfl hf)) hO
  refine ⟨h1, h2, h3, add_le_add (add_le_add h1 h2) h3, h5, h6, h7, ?_, ?_, ?_⟩
  · exact add_le_add (add_le_add h5 le_rfl) le_rfl
  · exact add_le_add (add_le_add le_rfl h6) le_rfl
  · exact add_le_add (add_le_add le_rfl le_rfl) h7

/-- Witness for C6: on Google Cloud pricing, growing each volume from
(1, 2, 3) to (10, 20, 30) does not decrease the total monthly cost. -/
theorem C6_monotonicity_witness :
    total_monthly_cost googleCloud 1 2 3 ≤ total_monthly_cost googleCloud 10 20 30 :=
  (C6_monotonicity googleCloud (by norm_num [googleCloud]) (by norm_num [googleCloud])
    (by norm_num [googleCloud]) 1 10 2 20 3 30 5 6 (by norm_num) (by norm_num)
    (by norm_num) (by norm_num)).2.2.2.1

/-- Counterexample to claim C3 as stated: DeepL has zero STT price and zero
STT free tier, and for 10 raw STT minutes the cost is 0 but the billable
volume is 10, not 0 (the clamp subtracts a zero allowance). -/
theorem C3_counterexample :
    deepL.stt_cost_per_minute = 0 ∧ deepL.stt_free_tier = 0 ∧
    (calculate_costs deepL 0 10 0).2.1 = 0 ∧
    billable 10 deepL.stt_free_tier = 10 ∧
    billable 10 deepL.stt_free_tier ≠ 0 := by
  norm_num [deepL, billable]

/-- Claim C3 amended: for every provider whose price and free-tier fields of
the STT and OCR dimensions are zero, cost evaluation of any raw volumes
yields zero cost for those dimensions, while the billable volume equals the
raw volume itself (not zero) whenever the raw volume is non-negative. -/
theorem C3_unsupported_dimension_cost_zero (p : ProviderPricing)
    (chars stt_mins ocr_imgs : ℚ)
    (hsp : p.stt_cost_per_minute = 0) (hsf : p.stt_free_tier = 0)
    (hop : p.ocr_cost_per_1000 = 0) (hof : p.ocr_free_tier = 0) :
    (calculate_costs p chars stt_mins ocr_imgs).2.1 = 0 ∧
    (calculate_costs p chars stt_mins ocr_imgs).2.2 = 0 ∧
    (0 ≤ stt_mins → billable stt_mins p.stt_free_tier = stt_mins) ∧
    (0 ≤ ocr_imgs → billable ocr_imgs p.ocr_free_tier = ocr_imgs) := by
  refine ⟨?_, ?_, ?_, ?_⟩
  · rw [calculate_costs_stt, hsp, mul_zero]
  · rw [calculate_costs_ocr, hop, mul_zero]
  · intro h
    rw [billable, hsf, sub_zero]
    exact max_eq_right h
  · intro h
    rw [billable, hof, sub_zero]
    exact max_eq_right h

/-- Witness for the amended C3: DeepL with 10 STT minutes and 7 OCR images
has zero STT and OCR costs, and billable volumes 10 and 7. -/
theorem C3_unsupported_dimension_cost_zero_witness :
    (calculate_costs deepL 0 10 7).2.1 = 0 ∧
    (calculate_costs deepL 0 10 7).2.2 = 0 ∧
    billable 10 deepL.stt_free_tier = 10 ∧
    billable 7 deepL.ocr_free_tier = 7 := by
  obtain ⟨h1, h2, h3, h4⟩ := C3_unsupported_dimension_cost_zero deepL 0 10 7
    (by norm_num [deepL]) (by norm_num [deepL]) (by norm_num [deepL]) (by norm_num [deepL])
  exact ⟨h1, h2, h3 (by norm_num), h4 (by norm_num)⟩

/-- The concrete scenario of the spec, mapped onto the source's inputs:
1000 users, 5 active days, 4 actions per day (one action per session, so
all three actions-per-session values are 1), mix text 70 / photo 10 (the
derived voice share is 20), 250 characters per text action.  The scenario
fixes no voice-character volume, so `avg_voice_chars` is 0; the scenario's
5 seconds per voice action has no input in the source, which hard-codes 30
seconds per voice action. -/
def scenario_assumptions : Assumptions :=
  ⟨1000, 5, 4, 70, 10, 1, 1, 1, 250, 0⟩

/-- The scenario's Google-like pricing: text free tier 500000 characters at
price 20 per million, STT free tier 60 minutes at 0.024 = 24/1000 per
minute, OCR free tier 1000 images at 1.50 = 3/2 per thousand. -/
def scenario_provider : ProviderPricing :=
  ⟨500000, 20, 60, 24/1000, 1000, 3/2, 0, 0, 0, 0, ""⟩

/-- Counterexample to claim C1 as stated: on the scenario input the source
computes 2000 STT minutes (30 hard-coded seconds per voice action), not
(4000 * 5) / 60 = 1000/3; it pools the 400000 OCR characters into the
translation volume, so the text cost is 68, not 60, and the total monthly
cost is 5803/50 = 116.06, not about 68.06. -/
theorem C1_counterexample :
    total_stt_minutes scenario_assumptions = 2000 ∧
    total_stt_minutes scenario_assumptions ≠ 1000 / 3 ∧
    billable (total_chars_for_translation scenario_assumptions)
      scenario_provider.text_free_tier ≠ 3000000 ∧
    (calculate_costs scenario_provider (total_chars_for_translation scenario_assumptions)
      (total_stt_minutes scenario_assumptions) (total_ocr_images scenario_assumptions)).1 ≠ 60 ∧
    total_monthly_cost scenario_provider (total_chars_for_translation scenario_assumptions)
      (total_stt_minutes scenario_assumptions) (total_ocr_images scenario_assumptions) ≠
        6806 / 100 := by
  norm_num [scenario_assumptions, scenario_provider, billable, total_monthly_cost,
    total_stt_minutes, total_voice_minutes, voice_sessions, voice_percent,
    total_sessions, total_chars_for_translation, total_text_chars, text_sessions,
    total_voice_chars, total_photo_chars, photo_sessions, total_ocr_images,
    total_photo_images]

/-- Claim C1 amended: on the scenario input the source yields total
sessions 20000, text characters 3500000, translation characters 3900000
(the 400000 OCR characters pooled in), billable translation characters
3400000 and text cost 68; STT minutes 2000 (hard-coded 30 seconds per
voice action), billable minutes 1940 and STT cost 46.56 = 1164/25; OCR
images 2000, billable images 1000 and OCR cost 1.50 = 3/2; total monthly
cost 116.06 = 5803/50 and annual cost 1392.72 = 34818/25. -/
theorem C1_scenario_evaluation :
    total_sessions scenario_assumptions = 20000 ∧
    total_text_chars scenario_assumptions = 3500000 ∧
    total_chars_for_translation scenario_assumptions = 3900000 ∧
    total_stt_minutes scenario_assumptions = 2000 ∧
    total_ocr_images scenario_assumptions = 2000 ∧
    billable (total_chars_for_translation scenario_assumptions)
      scenario_provider.text_free_tier = 3400000 ∧
    billable (total_stt_minutes scenario_assumptions)
      scenario_provider.stt_free_tier = 1940 ∧
    billable (total_ocr_images scenario_assumptions)
      scenario_provider.ocr_free_tier = 1000 ∧
    (calculate_costs scenario_provider (total_chars_for_translation scenario_assumptions)
      (total_stt_minutes scenario_assumptions) (total_ocr_images scenario_assumptions)).1 = 68 ∧
    (calculate_costs scenario_provider (total_chars_for_translation scenario_assumptions)
      (total_stt_minutes scenario_assumptions) (total_ocr_images scenario_assumptions)).2.1 =
        1164 / 25 ∧
    (calculate_costs scenario_provider (total_chars_for_translation scenario_assumptions)
      (total_stt_minutes scenario_assumptions) (total_ocr_images scenario_assumptions)).2.2 =
        3 / 2 ∧
    total_monthly_cost scenario_provider (total_chars_for_translation scenario_assumptions)
      (total_stt_minutes scenario_assumptions) (total_ocr_images scenario_assumptions) =
        5803 / 50 ∧
    annual_cost scenario_provider (total_chars_for_translation scenario_assumptions)
      (total_stt_minutes scenario_assumptions) (total_ocr_images scenario_assumptions) =
        34818 / 25 := by
  norm_num [scenario_assumptions, scenario_provider, billable, total_monthly_cost,
    annual_cost, total_stt_minutes, total_voice_minutes, voice_sessions, voice_percent,
    total_sessions, total_chars_for_translation, total_text_chars, text_sessions,
    total_voice_chars, total_photo_chars, photo_sessions, total_ocr_images,
    total_photo_images]

/-- Ordered insertion does not disturb the subsequence of rows carrying any
fixed monthly cost: rows skipped on the way in have a strictly smaller
cost, so they never match the inserted row's cost. -/
theorem filter_cost_orderedInsert (x : String × ℚ) (s : List (String × ℚ)) (q : ℚ) :
    (List.orderedInsert costLE x s).filter (fun row => decide (row.2 = q)) =
      (x :: s).filter (fun row => decide (row.2 = q)) := by
  induction s with
  | nil => rfl
  | cons y ys ih =>
    by_cases hxy : costLE x y
    · rw [List.orderedInsert, if_pos hxy]
    · rw [List.orderedInsert, if_neg hxy]
      have hlt : y.2 < x.2 := lt_of_not_le hxy
      by_cases hx : x.2 = q
      · have hy : y.2 ≠ q := by
          rw [← hx]
          exact ne_of_lt hlt
        simp [List.filter_cons, ih, hx, hy]
      · by_cases hy : y.2 = q <;> simp [List.filter_cons, ih, hx, hy]

/-- Insertion sort preserves the relative order of rows with equal monthly
cost: filtering the sorted list down to any one cost value gives the same
sequence as filtering the input. -/
theorem filter_cost_insertionSort (l : List (String × ℚ)) (q : ℚ) :
    (List.insertionSort costLE l).filter (fun row => decide (row.2 = q)) =
      l.filter (fun row => decide (row.2 = q)) := by
  induction l with
  | nil => rfl
  | cons x xs ih =>
    rw [List.insertionSort, filter_cost_orderedInsert, List.filter_cons,
      List.filter_cons, ih]

/-- Claim C4: for every volumes, the sorted comparison is a permutation of
one row per catalog provider (the row names are exactly the catalog names,
which are distinct), it is sorted ascending by monthly cost, and rows of
equal cost keep the catalog insertion order (for each cost value, filtering
the sorted output gives the same sequence as filtering the catalog-order
rows). -/
theorem C4_comparison_sorted_stable (chars stt_mins ocr_imgs : ℚ) :
    (comparison_sorted chars stt_mins ocr_imgs).Perm
      (all_provider_costs chars stt_mins ocr_imgs) ∧
    (all_provider_costs chars stt_mins ocr_imgs).map Prod.fst = PROVIDERS.map Prod.fst ∧
    (PROVIDERS.map Prod.fst).Nodup ∧
    List.Sorted costLE (comparison_sorted chars stt_mins ocr_imgs) ∧
    (∀ q : ℚ, (comparison_sorted chars stt_mins ocr_imgs).filter
        (fun row => decide (row.2 = q)) =
      (all_provider_costs chars stt_mins ocr_imgs).filter
        (fun row => decide (row.2 = q))) := by
  refine ⟨List.perm_insertionSort costLE _, rfl, by decide,
    List.sorted_insertionSort costLE _, fun q => filter_cost_insertionSort _ q⟩

end CostCalculator
